import Mathlib

set_option maxRecDepth 4000

/-!
Verification of the realtime-whisper summarization backends.

The repository contains several near-duplicate Python HTTP backends
(working_server.py, main.py, simple_http_server.py, clean_server.py, ...).
Each validates a transcript, calls the OpenAI chat-completions endpoint and
optionally sends the summary by SMTP mail.

Shallow embedding conventions:
* Python strings are modelled as `List Char`; a Lean string literal `s` is
  turned into the model type via `s.data`.
* `os.getenv` results are `Option (List Char)`; Python truthiness of such a
  value (`if not key`) is `pyTruthy`.
* The two external collaborators are opaque: the provider's HTTP response is
  a `ProviderBehavior` parameter and the SMTP transaction outcome is a
  `SmtpOutcome` parameter, passed into each embedded handler.
* Each handler additionally returns a `CallTrace` recording whether the
  outbound provider HTTP request and the SMTP transaction were attempted.
* Python exceptions are values of `PyError` propagated through `Except`.
* JSON response bodies are association lists of `JVal` values.
-/

/-- Python truthiness of an optional string (None and "" are falsy). -/
def pyTruthy : Option (List Char) → Bool
  | none => false
  | some s => !s.isEmpty

/-- Python str.strip(): drop leading and trailing whitespace. -/
def pyStrip (s : List Char) : List Char :=
  ((s.dropWhile Char.isWhitespace).reverse.dropWhile Char.isWhitespace).reverse

/-- Python str.replace for a single-character pattern: each occurrence of the
character `a` is replaced by `r` (for one-character patterns, str.replace is
exactly this character-wise substitution). -/
def pyReplaceChar (a : Char) (r : List Char) (s : List Char) : List Char :=
  s.flatMap (fun c => if c = a then r else [c])

/-- The escaping applied to the summary before it is embedded into the HTML
email body: summary.replace('<', '&lt;').replace('>', '&gt;'). -/
def escapeAngle (s : List Char) : List Char :=
  pyReplaceChar '>' "&gt;".data (pyReplaceChar '<' "&lt;".data s)

/-- Process environment at the time of a request (os.getenv results). -/
structure Env where
  OPENAI_API_KEY : Option (List Char)
  GMAIL_USER : Option (List Char)
  GMAIL_APP_PASSWORD : Option (List Char)
deriving DecidableEq

/-- Behaviour of the opaque summarization endpoint for the single POST this
request performs: either an HTTP response (status, raw text, and the parsed
choices[0].message.content when the JSON has that shape) or a transport-level
requests exception. -/
inductive ProviderBehavior where
  | respond (status : Nat) (text : List Char) (content : Option (List Char))
  | transportError (msg : List Char)
deriving DecidableEq

/-- Outcome of the opaque SMTP transaction (starttls/login/send_message). -/
inductive SmtpOutcome where
  | ok
  | error (msg : List Char)
deriving DecidableEq

/-- Python exception values that occur in these handlers. -/
inductive PyError where
  | httpException (status : Nat) (detail : List Char)
  | valueError (msg : List Char)
  | keyError (key : List Char)
  | exception (msg : List Char)
deriving DecidableEq

/-- Python str(e) for the exceptions above.  str of a fastapi HTTPException
is "status_code: detail"; str of a KeyError is the repr of the missing key,
hence the quotes. -/
def strOfPyError : PyError → List Char
  | .httpException s d => (toString s).data ++ ": ".data ++ d
  | .valueError m => m
  | .keyError k => "'".data ++ k ++ "'".data
  | .exception m => m

/-- Trace of the outbound calls attempted while handling one request. -/
structure CallTrace where
  providerHttpAttempted : Bool
  smtpAttempted : Bool
deriving DecidableEq

/-- The meetingInfo JSON object of the dict-based servers: each key is
optional (absent key = none).  Other keys than these four are never read. -/
structure MeetingInfoDict where
  date : Option (List Char)
  startTime : Option (List Char)
  duration : Option (List Char)
  segmentCount : Option (List Char)
deriving DecidableEq

/-- Python truthiness of the meetingInfo dict: non-empty = some key present. -/
def MeetingInfoDict.truthy (m : MeetingInfoDict) : Bool :=
  m.date.isSome || m.startTime.isSome || m.duration.isSome || m.segmentCount.isSome

/-- The empty dict, the request.get('meetingInfo', default) value. -/
def MeetingInfoDict.empty : MeetingInfoDict := ⟨none, none, none, none⟩

/-- JSON values appearing in the response bodies. -/
inductive JVal where
  | jnull
  | jbool (b : Bool)
  | jstr (s : List Char)
deriving DecidableEq

/-- A JSON object body: association list field-name/value. -/
abbrev JBody := List (List Char × JVal)

/-- The 200 response body of the summarize endpoints. -/
structure SummarizeResult where
  success : Bool
  summary : List Char
  emailSent : Bool
deriving DecidableEq

/-- A request body as read by the dict-based servers (request.get with
defaults); an absent JSON field is none. -/
structure RequestDict where
  transcript : Option (List Char)
  language : Option (List Char)
  email : Option (List Char)
  meetingInfo : Option MeetingInfoDict
deriving DecidableEq

namespace WorkingServer

/-- working_server.py get_korean_prompt. -/
def get_korean_prompt : List Char :=
  "\n다음은 회의 음성을 STT로 변환한 원본 텍스트입니다. \n아래 작업을 수행해주세요:\n\n1. STT 오류 보정: 명백한 인식 오류나 문법 오류를 자연스럽게 수정\n2. 회의 요약 작성: \n   - 주요 논의 사항 (3-5개 핵심 포인트)\n   - 결정된 사항\n   - 액션 아이템 (담당자와 기한 포함 시)\n   - 다음 회의 일정이나 후속 조치\n\n응답 형식:\n## 📝 회의 요약\n\n### 🎯 주요 논의 사항\n- 핵심 포인트 1\n- 핵심 포인트 2\n\n### ✅ 결정 사항\n- 결정된 내용들\n\n### 📋 액션 아이템\n- [ ] 작업 내용 (담당자, 기한)\n\n### 📅 후속 조치\n- 다음 회의 일정 등\n\n원본 STT 텍스트:\n".data

/-- working_server.py get_english_prompt. -/
def get_english_prompt : List Char :=
  "\nPlease summarize this meeting transcript:\n\n1. STT Error Correction: Fix obvious speech recognition errors\n2. Meeting Summary:\n   - Key discussion points (3-5 core points)\n   - Decisions made\n   - Action items (with assignees and deadlines)\n   - Follow-up actions\n\nResponse format:\n## 📝 Meeting Summary\n\n### 🎯 Key Discussion Points\n- Point 1\n- Point 2\n\n### ✅ Decisions Made\n- Decided items\n\n### 📋 Action Items\n- [ ] Task (assignee, deadline)\n\n### 📅 Follow-up Actions\n- Next meeting schedule\n\nOriginal STT Text:\n".data

/-- working_server.py line 106: template selection by language. -/
def prompt_for (language : List Char) : List Char :=
  if language = "korean".data then get_korean_prompt else get_english_prompt

/-- working_server.py line 113: the system message content of the payload. -/
def system_content : List Char :=
  "You are a professional meeting summarizer with expertise in correcting STT errors and creating structured summaries.".data

/-- working_server.py line 117: the user message content of the payload,
f-string of the selected prompt and the raw transcript. -/
def user_content (transcript language : List Char) : List Char :=
  prompt_for language ++ "\n\n".data ++ transcript

/-- working_server.py lines 110-119: the messages list of the payload as
(role, content) pairs. -/
def payload_messages (transcript language : List Char) : List (List Char × List Char) :=
  [("system".data, system_content), ("user".data, user_content transcript language)]

/-- working_server.py call_openai_api.  Returns the result together with a
flag saying whether the outbound HTTP request (requests.post) was reached.
A missing key raises HTTPException(500) before the request; a non-200 status
raises HTTPException(500); a 200 response with missing JSON keys raises
KeyError, which is not caught here. -/
def call_openai_api (env : Env) (provider : ProviderBehavior)
    (_transcript _language : List Char) : Except PyError (List Char) × Bool :=
  if !(pyTruthy env.OPENAI_API_KEY) then
    (.error (.httpException 500 "OPENAI_API_KEY가 설정되지 않았습니다".data), false)
  else
    match provider with
    | .transportError msg => (.error (.exception msg), true)
    | .respond status text content =>
      if status = 200 then
        match content with
        | some c => (.ok c, true)
        | none => (.error (.keyError "choices".data), true)
      else
        (.error (.httpException 500 ("OpenAI API 오류: ".data ++ text)), true)

/-- working_server.py line 150: the Subject header of the mail message. -/
def mail_subject (meeting_info : MeetingInfoDict) : List Char :=
  "📋 회의 요약 - ".data ++
    (if meeting_info.truthy then meeting_info.date.getD "오늘".data else "오늘".data)

/-- Template text of the html body before the meta-info block. -/
def htmlHead : List Char :=
  "\n        <!DOCTYPE html>\n        <html>\n        <head>\n            <meta charset=\"utf-8\">\n            <style>\n                body \x7b font-family: -apple-system, BlinkMacSystemFont, 'Segoe UI', Roboto, sans-serif; line-height: 1.6; color: #333; \x7d\n                .header \x7b background: #f8f9fa; padding: 20px; border-radius: 8px; margin-bottom: 20px; \x7d\n                .content \x7b padding: 20px; \x7d\n                .summary \x7b background: #fff; border: 1px solid #e9ecef; border-radius: 8px; padding: 20px; \x7d\n                h1, h2, h3 \x7b color: #2d3748; \x7d\n                .meta-info \x7b background: #e3f2fd; padding: 15px; border-radius: 5px; margin-bottom: 20px; \x7d\n            </style>\n        </head>\n        <body>\n            <div class=\"header\">\n                <h1>🎯 AI 회의 요약 결과</h1>\n                <p>STT 결과를 분석하여 자동으로 생성된 회의 요약입니다.</p>\n            </div>\n            \n            ".data

/-- Meta block template: text before the date value. -/
def metaPre : List Char :=
  "\n            <div class=\"meta-info\">\n                <h3>📅 회의 정보</h3>\n                <p><strong>날짜:</strong> ".data

/-- Meta block template: between the date and startTime values. -/
def metaMid1 : List Char :=
  "</p>\n                <p><strong>시작 시간:</strong> ".data

/-- Meta block template: between the startTime and duration values. -/
def metaMid2 : List Char :=
  "</p>\n                <p><strong>녹음 시간:</strong> ".data

/-- Meta block template: between the duration and segmentCount values. -/
def metaMid3 : List Char :=
  "</p>\n                <p><strong>세그먼트 수:</strong> ".data

/-- Meta block template: text after the segmentCount value. -/
def metaPost : List Char :=
  "개</p>\n            </div>\n            ".data

/-- Template text between the meta block and the escaped summary. -/
def htmlMid : List Char :=
  "\n            \n            <div class=\"content\">\n                <div class=\"summary\">\n                    <div style=\"white-space: pre-wrap; font-family: inherit;\">\n".data

/-- Template text after the escaped summary. -/
def htmlTail : List Char :=
  "\n                    </div>\n                </div>\n            </div>\n            \n            <div style=\"margin-top: 30px; padding: 15px; background: #f8f9fa; border-radius: 5px; font-size: 12px; color: #6c757d;\">\n                <p>이 요약은 AI(OpenAI GPT-4)를 통해 자동 생성되었습니다. 내용을 검토하시고 필요시 수정해 주세요.</p>\n            </div>\n        </body>\n        </html>\n        ".data

/-- working_server.py lines 174-182: the conditional meta-info block of the
html body.  Inside a truthy dict, meeting_info[\"date\"] is indexed directly,
so an absent date key raises KeyError, while the other three fields are read
with .get(..., \"\") and an absent one renders as the empty string. -/
def html_meta_block (meeting_info : MeetingInfoDict) : Except PyError (List Char) :=
  if meeting_info.truthy then
    match meeting_info.date with
    | none => .error (.keyError "date".data)
    | some d =>
      .ok (metaPre ++ d ++ metaMid1 ++ meeting_info.startTime.getD [] ++
        metaMid2 ++ meeting_info.duration.getD [] ++
        metaMid3 ++ meeting_info.segmentCount.getD [] ++ metaPost)
  else .ok []

/-- working_server.py lines 154-197: the html email body; the summary is
embedded with angle brackets escaped. -/
def html_content (summary : List Char) (meeting_info : MeetingInfoDict) :
    Except PyError (List Char) :=
  match html_meta_block meeting_info with
  | .error e => .error e
  | .ok mb => .ok (htmlHead ++ mb ++ htmlMid ++ escapeAngle summary ++ htmlTail)

/-- working_server.py send_email.  Returns (returned bool, SMTP attempted).
All exceptions (including the KeyError from html composition) are caught by
the enclosing try/except, which logs and returns False; missing credentials
return False before anything is composed or sent. -/
def send_email (env : Env) (smtp : SmtpOutcome) (_email summary : List Char)
    (meeting_info : MeetingInfoDict) : Bool × Bool :=
  if !(pyTruthy env.GMAIL_USER) || !(pyTruthy env.GMAIL_APP_PASSWORD) then
    (false, false)
  else
    match html_content summary meeting_info with
    | .error _ => (false, false)
    | .ok _ =>
      match smtp with
      | .ok => (true, true)
      | .error _ => (false, true)

/-- working_server.py summarize_and_email (POST /api/summarize).  The outer
try re-raises HTTPException and wraps any other exception into
HTTPException(500, "요약 처리 실패: " + str(e)). -/
def summarize_and_email (env : Env) (provider : ProviderBehavior)
    (smtp : SmtpOutcome) (request : RequestDict) :
    Except PyError SummarizeResult × CallTrace :=
  let transcript := request.transcript.getD []
  let language := request.language.getD "korean".data
  let email := request.email.getD []
  let meeting_info := request.meetingInfo.getD MeetingInfoDict.empty
  if transcript.isEmpty || transcript.length < 10 then
    (.error (.httpException 400 "텍스트가 너무 짧습니다".data), ⟨false, false⟩)
  else
    match call_openai_api env provider transcript language with
    | (.error (.httpException s d), attempted) =>
      (.error (.httpException s d), ⟨attempted, false⟩)
    | (.error e, attempted) =>
      (.error (.httpException 500 ("요약 처리 실패: ".data ++ strOfPyError e)),
        ⟨attempted, false⟩)
    | (.ok summary, attempted) =>
      if !email.isEmpty && !(pyStrip email).isEmpty then
        let r := send_email env smtp (pyStrip email) summary meeting_info
        (.ok ⟨true, summary, r.1⟩, ⟨attempted, r.2⟩)
      else
        (.ok ⟨true, summary, false⟩, ⟨attempted, false⟩)

/-- FastAPI rendering of the handler outcome as (status, JSON body): a
returned dict becomes a 200 JSON body, an HTTPException becomes a response
with its status code and body defaulting to the detail under the key
"detail".  (Any non-HTTPException escaping a handler would become a plain
500 Internal Server Error; the handlers below only let HTTPException
escape.) -/
def render : Except PyError SummarizeResult × CallTrace → Nat × JBody
  | (.ok r, _) =>
    (200, [("success".data, .jbool r.success), ("summary".data, .jstr r.summary),
      ("emailSent".data, .jbool r.emailSent)])
  | (.error (.httpException s d), _) => (s, [("detail".data, .jstr d)])
  | (.error _, _) => (500, [("detail".data, .jstr "Internal Server Error".data)])

end WorkingServer

namespace MainServer

/-- main.py MeetingInfo pydantic model: every field is required. -/
structure MeetingInfo where
  date : List Char
  startTime : List Char
  duration : List Char
  segmentCount : Int
deriving DecidableEq

/-- main.py SummaryRequest pydantic model; the prompt field is declared but
never read by any handler. -/
structure SummaryRequest where
  transcript : List Char
  language : List Char
  email : List Char
  meetingInfo : Option MeetingInfo
  prompt : Option (List Char)
deriving DecidableEq

/-- main.py get_korean_prompt. -/
def get_korean_prompt : List Char :=
  "\n당신은 전문적인 회의록 요약 전문가입니다. 주어진 STT 결과를 분석하고 요약해주세요.\n\n다음과 같은 형식으로 요약해주세요:\n\n##📝 회의 요약\n\n###🎯 주요 논의 사항\n- (주요 논의된 내용들을 요점 정리)\n\n\n###🔧 STT 결과 개선사항\n- (STT에서 잘못 인식된 부분이 있다면 수정사항 제시)\n\n**주의사항:**\n1. STT 결과에 오류가 있을 수 있으므로 문맥을 고려해 해석하세요\n2. 중요한 숫자, 날짜, 이름 등은 정확히 파악하세요\n3. 불필요한 추측은 하지 마세요\n4. 한국어로 작성해주세요\n".data

/-- main.py get_english_prompt. -/
def get_english_prompt : List Char :=
  "\nYou are a professional meeting summarizer. Please analyze and summarize the given STT results.\n\nPlease format the summary as follows:\n\n## 📝 Meeting Summary\n\n### 🎯 Key Discussion Points\n- (Main topics discussed)\n\n### ✅ Decisions Made\n- (Decisions reached during the meeting)\n\n### 📋 Action Items\n- (Follow-up tasks and responsibilities)\n\n### 🔧 STT Corrections\n- (Any corrections needed for STT misrecognitions)\n\n**Guidelines:**\n1. STT results may contain errors, so interpret based on context\n2. Accurately identify important numbers, dates, names\n3. Avoid unnecessary speculation\n4. Write in English\n".data

/-- main.py line 152: template selection by language. -/
def prompt_for (language : List Char) : List Char :=
  if language = "korean".data then get_korean_prompt else get_english_prompt

/-- main.py line 157: the system message content. -/
def system_content : List Char :=
  "You are a professional meeting summarizer with expertise in correcting STT errors and creating structured summaries.".data

/-- main.py line 161: the user message content built in generate_summary. -/
def user_content (transcript language : List Char) : List Char :=
  prompt_for language ++ "\n\n**회의 내용:**\n".data ++ transcript

/-- main.py lines 154-163: the messages passed to call_openai_api as
(role, content) pairs. -/
def request_messages (transcript language : List Char) :
    List (List Char × List Char) :=
  [("system".data, system_content), ("user".data, user_content transcript language)]

/-- main.py call_openai_api.  A missing key raises ValueError before the
HTTP request; a transport failure or non-2xx status (raise_for_status)
raises HTTPException(500, "OpenAI API 호출 실패: ..."); a 200 response whose
JSON lacks the choices path raises KeyError, re-raised as
HTTPException(500, "OpenAI API 응답 파싱 실패: ...").  The Bool records
whether requests.post was reached. -/
def call_openai_api (env : Env) (provider : ProviderBehavior)
    (_messages : List (List Char × List Char)) : Except PyError (List Char) × Bool :=
  if !(pyTruthy env.OPENAI_API_KEY) then
    (.error (.valueError "OPENAI_API_KEY 환경변수가 설정되지 않았습니다".data), false)
  else
    match provider with
    | .transportError msg =>
      (.error (.httpException 500 ("OpenAI API 호출 실패: ".data ++ msg)), true)
    | .respond status text content =>
      if 400 ≤ status then
        (.error (.httpException 500 ("OpenAI API 호출 실패: ".data ++ text)), true)
      else
        match content with
        | some c => (.ok c, true)
        | none =>
          (.error (.httpException 500
            ("OpenAI API 응답 파싱 실패: ".data ++ "'choices'".data)), true)

/-- main.py generate_summary: builds the messages and calls the provider;
any exception is wrapped into HTTPException(500, "요약 생성 실패: " + str(e)). -/
def generate_summary (env : Env) (provider : ProviderBehavior)
    (transcript language : List Char) : Except PyError (List Char) × Bool :=
  match call_openai_api env provider (request_messages transcript language) with
  | (.ok c, attempted) => (.ok c, attempted)
  | (.error e, attempted) =>
    (.error (.httpException 500 ("요약 생성 실패: ".data ++ strOfPyError e)), attempted)

/-- main.py line 185: the Subject header of the mail message. -/
def mail_subject (meeting_info : Option MeetingInfo) : List Char :=
  "📋 회의 요약 - ".data ++
    (match meeting_info with
     | some m => m.date
     | none => "오늘".data)

/-- Template text of the html body before the meta-info block, first part
(doctype, head opening and the first two style rules). -/
def htmlHeadA : List Char :=
  "\n        <!DOCTYPE html>\n        <html>\n        <head>\n            <meta charset=\"utf-8\">\n            <style>\n                body \x7b font-family: -apple-system, BlinkMacSystemFont, 'Segoe UI', Roboto, sans-serif; line-height: 1.6; color: #333; \x7d\n                .header \x7b background: #f8f9fa; padding: 20px; border-radius: 8px; margin-bottom: 20px; \x7d\n".data

/-- Template text of the html body before the meta-info block, second part
(remaining style rules up to the end of the head element). -/
def htmlHeadB : List Char :=
  "                .content \x7b padding: 20px; \x7d\n                .summary \x7b background: #fff; border: 1px solid #e9ecef; border-radius: 8px; padding: 20px; \x7d\n                h1, h2, h3 \x7b color: #2d3748; \x7d\n                .meta-info \x7b background: #e3f2fd; padding: 15px; border-radius: 5px; margin-bottom: 20px; \x7d\n            </style>\n        </head>\n".data

/-- Template text of the html body before the meta-info block, third part
(the header div of the body). -/
def htmlHeadC : List Char :=
  "        <body>\n            <div class=\"header\">\n                <h1>🎯 AI 회의 요약 결과</h1>\n                <p>STT 결과를 분석하여 자동으로 생성된 회의 요약입니다.</p>\n            </div>\n            \n            ".data

/-- Template text of the html body before the meta-info block: the three
parts above concatenated split the literal of lines 191-209 of main.py. -/
def htmlHead : List Char := htmlHeadA ++ htmlHeadB ++ htmlHeadC

/-- Meta block template: text before the date value. -/
def metaPre : List Char :=
  "\n            <div class=\"meta-info\">\n                <h3>📅 회의 정보</h3>\n                <p><strong>날짜:</strong> ".data

/-- Meta block template: between the date and startTime values. -/
def metaMid1 : List Char :=
  "</p>\n                <p><strong>시작 시간:</strong> ".data

/-- Meta block template: between the startTime and duration values. -/
def metaMid2 : List Char :=
  "</p>\n                <p><strong>녹음 시간:</strong> ".data

/-- Meta block template: text after the duration value. -/
def metaPost : List Char :=
  "</p>\n            </div>\n            ".data

/-- Template text between the meta block and the escaped summary. -/
def htmlMid : List Char :=
  "\n            \n            <div class=\"content\">\n                <div class=\"summary\">\n                    <div style=\"white-space: pre-wrap; font-family: inherit;\">\n".data

/-- Template text between the escaped summary and the footer date. -/
def htmlTail1 : List Char :=
  "\n                    </div>\n                </div>\n            </div>\n            \n            <div style=\"margin-top: 30px; padding: 15px; background: #f8f9fa; border-radius: 5px; font-size: 12px; color: #6c757d;\">\n                <p>이 요약은 AI(OpenAI GPT-4)를 통해 자동 생성되었습니다. 내용을 검토하시고 필요시 수정해 주세요.</p>\n                <p>생성 시간: ".data

/-- Template text after the footer date. -/
def htmlTail2 : List Char :=
  "</p>\n            </div>\n        </body>\n        </html>\n        ".data

/-- main.py lines 210-217: the conditional meta-info block; the typed
MeetingInfo always has all three displayed fields. -/
def meta_block : Option MeetingInfo → List Char
  | none => []
  | some m => metaPre ++ m.date ++ metaMid1 ++ m.startTime ++ metaMid2 ++ m.duration ++ metaPost

/-- main.py line 229: the footer date expression. -/
def footer_date : Option MeetingInfo → List Char
  | none => "오늘".data
  | some m => m.date

/-- main.py lines 190-233: the html email body; the summary is embedded with
angle brackets escaped, the meetingInfo fields are embedded verbatim. -/
def html_content (summary : List Char) (meeting_info : Option MeetingInfo) : List Char :=
  htmlHead ++ meta_block meeting_info ++ htmlMid ++ escapeAngle summary ++
    htmlTail1 ++ footer_date meeting_info ++ htmlTail2

/-- main.py send_email.  Missing credentials raise ValueError, and every
exception inside the try is re-raised as HTTPException(500, "이메일 발송
실패: " + str(e)); an SMTP failure therefore also raises.  The Bool records
whether the SMTP transaction was attempted. -/
def send_email (env : Env) (smtp : SmtpOutcome) (_email _summary : List Char)
    (_meeting_info : Option MeetingInfo) : Except PyError Bool × Bool :=
  if !(pyTruthy env.GMAIL_USER) || !(pyTruthy env.GMAIL_APP_PASSWORD) then
    (.error (.httpException 500
      ("이메일 발송 실패: ".data ++ "Gmail 인증 정보가 설정되지 않았습니다".data)), false)
  else
    match smtp with
    | .ok => (.ok true, true)
    | .error m =>
      (.error (.httpException 500 ("이메일 발송 실패: ".data ++ m)), true)

/-- main.py summarize_and_email (POST /api/summarize).  send_email is called
unconditionally, whatever the email field holds.  HTTPException is re-raised
by the outer except; the final except-Exception branch (returning a 200 body
with success=false) is unreachable because every failure inside the try is
raised as HTTPException. -/
def summarize_and_email (env : Env) (provider : ProviderBehavior)
    (smtp : SmtpOutcome) (request : SummaryRequest) :
    Except PyError SummarizeResult × CallTrace :=
  if (pyStrip request.transcript).isEmpty then
    (.error (.httpException 400 "요약할 텍스트가 비어있습니다".data), ⟨false, false⟩)
  else if request.transcript.length < 10 then
    (.error (.httpException 400 "텍스트가 너무 짧습니다".data), ⟨false, false⟩)
  else
    match generate_summary env provider request.transcript request.language with
    | (.error e, attempted) => (.error e, ⟨attempted, false⟩)
    | (.ok summary, attempted) =>
      match send_email env smtp request.email summary request.meetingInfo with
      | (.error e, s) => (.error e, ⟨attempted, s⟩)
      | (.ok sent, s) => (.ok ⟨true, summary, sent⟩, ⟨attempted, s⟩)

/-- Property of an optional typed MeetingInfo: none of its displayed fields
contains an angle-open character.  The html body embeds these fields
verbatim (no escaping), so statements about markup injection through the
summary are made under this side condition. -/
def meetingInfoNoLt : Option MeetingInfo → Prop
  | none => True
  | some m => '<' ∉ m.date ∧ '<' ∉ m.startTime ∧ '<' ∉ m.duration

/-- FastAPI rendering with response_model SummaryResponse: a 200 body
serializes every model field; an HTTPException becomes its status code with
the detail under "detail" (no success field). -/
def render : Except PyError SummarizeResult × CallTrace → Nat × JBody
  | (.ok r, _) =>
    (200, [("success".data, .jbool r.success), ("summary".data, .jstr r.summary),
      ("correctedTranscript".data, .jnull), ("emailSent".data, .jbool r.emailSent),
      ("error".data, .jnull)])
  | (.error (.httpException s d), _) => (s, [("detail".data, .jstr d)])
  | (.error _, _) => (500, [("detail".data, .jstr "Internal Server Error".data)])

end MainServer

namespace SimpleHttpServer

/-- simple_http_server.py get_korean_prompt (same text as working_server's). -/
def get_korean_prompt : List Char :=
  "\n다음은 회의 음성을 STT로 변환한 원본 텍스트입니다. \n아래 작업을 수행해주세요:\n\n1. STT 오류 보정: 명백한 인식 오류나 문법 오류를 자연스럽게 수정\n2. 회의 요약 작성: \n   - 주요 논의 사항 (3-5개 핵심 포인트)\n   - 결정된 사항\n   - 액션 아이템 (담당자와 기한 포함 시)\n   - 다음 회의 일정이나 후속 조치\n\n응답 형식:\n## 📝 회의 요약\n\n### 🎯 주요 논의 사항\n- 핵심 포인트 1\n- 핵심 포인트 2\n\n### ✅ 결정 사항\n- 결정된 내용들\n\n### 📋 액션 아이템\n- [ ] 작업 내용 (담당자, 기한)\n\n### 📅 후속 조치\n- 다음 회의 일정 등\n\n원본 STT 텍스트:\n".data

/-- simple_http_server.py line 67: template selection; the non-korean branch
is an inline one-line instruction. -/
def prompt_for (language : List Char) : List Char :=
  if language = "korean".data then get_korean_prompt
  else "Summarize this meeting transcript:".data

/-- simple_http_server.py line 74: the system message content. -/
def system_content : List Char :=
  "You are a professional meeting summarizer.".data

/-- simple_http_server.py line 78: the user message content. -/
def user_content (transcript language : List Char) : List Char :=
  prompt_for language ++ "\n\n".data ++ transcript

/-- simple_http_server.py call_openai_api.  A missing key or non-200 status
raises a plain Exception; missing JSON keys on a 200 raise KeyError.  The
Bool records whether requests.post was reached. -/
def call_openai_api (env : Env) (provider : ProviderBehavior)
    (_transcript _language : List Char) : Except PyError (List Char) × Bool :=
  if !(pyTruthy env.OPENAI_API_KEY) then
    (.error (.exception "OPENAI_API_KEY가 설정되지 않았습니다".data), false)
  else
    match provider with
    | .transportError msg => (.error (.exception msg), true)
    | .respond status text content =>
      if status = 200 then
        match content with
        | some c => (.ok c, true)
        | none => (.error (.keyError "choices".data), true)
      else
        (.error (.exception ("OpenAI API 오류: ".data ++ text)), true)

/-- Template text of the html body before the raw summary. -/
def htmlHead : List Char :=
  "\n        <html>\n        <body>\n            <h1>🎯 AI 회의 요약 결과</h1>\n            <div style=\"white-space: pre-wrap; font-family: monospace;\">\n".data

/-- Template text of the html body after the raw summary. -/
def htmlTail : List Char :=
  "\n            </div>\n            <hr>\n            <p style=\"font-size: 12px; color: #666;\">\n                이 요약은 AI(OpenAI GPT-4)를 통해 자동 생성되었습니다.\n            </p>\n        </body>\n        </html>\n        ".data

/-- simple_http_server.py lines 115-128: the html email body; the summary is
embedded verbatim, with no escaping. -/
def html_content (summary : List Char) : List Char :=
  htmlHead ++ summary ++ htmlTail

/-- simple_http_server.py send_email: missing credentials return False; all
exceptions are caught and turn into False.  The meeting_info dict is only
read with .get for the Subject line, so composition never raises. -/
def send_email (env : Env) (smtp : SmtpOutcome) (_email _summary : List Char)
    (_meeting_info : MeetingInfoDict) : Bool × Bool :=
  if !(pyTruthy env.GMAIL_USER) || !(pyTruthy env.GMAIL_APP_PASSWORD) then
    (false, false)
  else
    match smtp with
    | .ok => (true, true)
    | .error _ => (false, true)

/-- simple_http_server.py do_POST on /api/summarize, rendered directly as
(status, JSON body): a short transcript answers 400 with an error-only body,
an exception from the provider call answers 500 with success=false and the
error text, success answers 200. -/
def do_POST (env : Env) (provider : ProviderBehavior) (smtp : SmtpOutcome)
    (request : RequestDict) : (Nat × JBody) × CallTrace :=
  let transcript := request.transcript.getD []
  let language := request.language.getD "korean".data
  let email := request.email.getD []
  let meeting_info := request.meetingInfo.getD MeetingInfoDict.empty
  if transcript.isEmpty || transcript.length < 10 then
    ((400, [("error".data, .jstr "텍스트가 너무 짧습니다".data)]), ⟨false, false⟩)
  else
    match call_openai_api env provider transcript language with
    | (.error e, attempted) =>
      ((500, [("success".data, .jbool false), ("error".data, .jstr (strOfPyError e))]),
        ⟨attempted, false⟩)
    | (.ok summary, attempted) =>
      if !email.isEmpty && !(pyStrip email).isEmpty then
        let r := send_email env smtp (pyStrip email) summary meeting_info
        ((200, [("success".data, .jbool true), ("summary".data, .jstr summary),
          ("emailSent".data, .jbool r.1)]), ⟨attempted, r.2⟩)
      else
        ((200, [("success".data, .jbool true), ("summary".data, .jstr summary),
          ("emailSent".data, .jbool false)]), ⟨attempted, false⟩)

end SimpleHttpServer

namespace CleanServer

/-- Template text of the html body before the conditional date line. -/
def htmlHead : List Char :=
  "\n        <!DOCTYPE html>\n        <html>\n        <head>\n            <meta charset=\"utf-8\">\n            <style>\n                body \x7b font-family: -apple-system, BlinkMacSystemFont, 'Segoe UI', Roboto, sans-serif; line-height: 1.6; color: #333; \x7d\n                .content \x7b padding: 20px; \x7d\n                .summary \x7b background: #fff; border: 1px solid #e9ecef; border-radius: 8px; padding: 20px; \x7d\n            </style>\n        </head>\n        <body>\n            <div class=\"content\">\n                <h1>🎯 AI 회의 요약 결과</h1>\n                ".data

/-- Template text between the date line and the escaped summary. -/
def htmlMid : List Char :=
  "\n                <div class=\"summary\">\n                    <div style=\"white-space: pre-wrap; font-family: inherit;\">\n".data

/-- Template text after the escaped summary. -/
def htmlTail : List Char :=
  "\n                    </div>\n                </div>\n                <hr>\n                <p style=\"font-size: 12px; color: #666;\">\n                    이 요약은 AI(OpenAI GPT-4)를 통해 자동 생성되었습니다.\n                </p>\n            </div>\n        </body>\n        </html>\n        ".data

/-- clean_server.py line 171: the date line is rendered only when the dict
is truthy and actually has a "date" key, so it never raises; when the key is
absent the line renders as the empty string. -/
def date_line (meeting_info : MeetingInfoDict) : List Char :=
  if meeting_info.truthy then
    match meeting_info.date with
    | some d => "<p><strong>날짜:</strong> ".data ++ d ++ "</p>".data
    | none => []
  else []

/-- clean_server.py lines 157-184: the html email body; angle brackets of
the summary are escaped, composition is total. -/
def html_content (summary : List Char) (meeting_info : MeetingInfoDict) : List Char :=
  htmlHead ++ date_line meeting_info ++ htmlMid ++ escapeAngle summary ++ htmlTail

/-- clean_server.py send_email: missing credentials and every exception give
False; composition is total, so the result only depends on credentials and
the SMTP outcome. -/
def send_email (env : Env) (smtp : SmtpOutcome) (_email _summary : List Char)
    (_meeting_info : MeetingInfoDict) : Bool × Bool :=
  if !(pyTruthy env.GMAIL_USER) || !(pyTruthy env.GMAIL_APP_PASSWORD) then
    (false, false)
  else
    match smtp with
    | .ok => (true, true)
    | .error _ => (false, true)

end CleanServer

section ListLemmas

/-- pyReplaceChar distributes over append. -/
theorem pyReplaceChar_append (a : Char) (r u v : List Char) :
    pyReplaceChar a r (u ++ v) = pyReplaceChar a r u ++ pyReplaceChar a r v := by
  simp [pyReplaceChar]

/-- escapeAngle distributes over append. -/
theorem escapeAngle_append (u v : List Char) :
    escapeAngle (u ++ v) = escapeAngle u ++ escapeAngle v := by
  simp [escapeAngle, pyReplaceChar_append]

/-- Characters of a replaced string come from the replacement or are
untouched characters distinct from the pattern. -/
theorem mem_pyReplaceChar {c a : Char} {r s : List Char}
    (h : c ∈ pyReplaceChar a r s) : c ∈ r ∨ (c ∈ s ∧ c ≠ a) := by
  simp only [pyReplaceChar, List.mem_flatMap] at h
  obtain ⟨x, hx, hc⟩ := h
  by_cases hxa : x = a
  · subst hxa
    simp at hc
    exact Or.inl hc
  · simp [hxa] at hc
    subst hc
    exact Or.inr ⟨hx, hxa⟩

/-- The escaped summary contains no angle-open character. -/
theorem lt_not_mem_escapeAngle (s : List Char) : '<' ∉ escapeAngle s := by
  intro h
  rcases mem_pyReplaceChar h with h' | ⟨h', _⟩
  · simp at h'
  · rcases mem_pyReplaceChar h' with h'' | ⟨_, h''⟩
    · simp at h''
    · exact h'' rfl

/-- The escaped summary contains no angle-close character. -/
theorem gt_not_mem_escapeAngle (s : List Char) : '>' ∉ escapeAngle s := by
  intro h
  rcases mem_pyReplaceChar h with h' | ⟨h', h2⟩
  · simp at h'
  · exact h2 rfl

/-- Escaping preserves infixes. -/
theorem escapeAngle_mono {p s : List Char} (h : p <:+: s) :
    escapeAngle p <:+: escapeAngle s := by
  obtain ⟨u, v, rfl⟩ := h
  exact ⟨escapeAngle u, escapeAngle v, by rw [← escapeAngle_append, ← escapeAngle_append]⟩

/-- An infix of a concatenation lies in the left part, in the right part, or
crosses the boundary, in which case it splits into a non-empty suffix of the
left part followed by a non-empty prefix of the right part. -/
theorem infix_append_split {p x y : List Char} (h : p <:+: x ++ y) :
    p <:+: x ∨ p <:+: y ∨
      ∃ p₁ p₂, p = p₁ ++ p₂ ∧ p₁ ≠ [] ∧ p₂ ≠ [] ∧ p₁ <:+ x ∧ p₂ <+: y := by
  obtain ⟨s, t, hst⟩ := h
  rw [List.append_assoc] at hst
  rcases List.append_eq_append_iff.mp hst with ⟨a, hx, hpt⟩ | ⟨c, _, hy⟩
  · rcases List.append_eq_append_iff.mp hpt with ⟨b, ha, _⟩ | ⟨d, hp, hy2⟩
    · left
      exact ⟨s, b, by rw [hx, ha]; simp [List.append_assoc]⟩
    · rcases eq_or_ne a [] with rfl | hane
      · right; left
        simp only [List.nil_append] at hp
        exact List.IsPrefix.isInfix ⟨t, by rw [hp, ← hy2]⟩
      · rcases eq_or_ne d [] with rfl | hdne
        · left
          simp only [List.append_nil] at hp
          exact ⟨s, [], by rw [hp, hx]; simp⟩
        · right; right
          exact ⟨a, d, hp, hane, hdne, ⟨s, hx.symm⟩, ⟨t, hy2.symm⟩⟩
  · right; left
    exact ⟨c, t, by rw [List.append_assoc]; exact hy.symm⟩

/-- A suffix of a concatenation that is no longer than the right part is a
suffix of the right part. -/
theorem suffix_drop_left {p x y : List Char} (hl : p.length ≤ y.length)
    (h : p <:+ x ++ y) : p <:+ y := by
  obtain ⟨s, hs⟩ := h
  have hlen : s.length + p.length = x.length + y.length := by
    have := congrArg List.length hs
    simpa using this
  have hxs : x.length ≤ s.length := by omega
  refine ⟨s.drop x.length, ?_⟩
  have hdrop : (s ++ p).drop x.length = (x ++ y).drop x.length := by rw [hs]
  rwa [List.drop_append_of_le_length hxs, List.drop_left] at hdrop

/-- An infix of the right part of a concatenation is an infix of the whole. -/
theorem infix_of_infix_right {p y : List Char} (x : List Char) (h : p <:+: y) :
    p <:+: x ++ y := by
  obtain ⟨u, v, rfl⟩ := h
  exact ⟨x ++ u, v, by simp⟩

/-- Master step for proving that a pattern is not an infix of a
concatenation: no occurrence in either part and no split of the pattern
whose first half is a suffix of the left part. -/
theorem not_infix_append_of {p x y : List Char}
    (hx : ¬ p <:+: x) (hy : ¬ p <:+: y)
    (hcross : ∀ p₁ p₂, p = p₁ ++ p₂ → p₁ ≠ [] → p₂ ≠ [] → ¬ p₁ <:+ x) :
    ¬ p <:+: x ++ y := by
  intro h
  rcases infix_append_split h with h | h | ⟨p₁, p₂, hp, h1, h2, hsx, _⟩
  · exact hx h
  · exact hy h
  · exact hcross p₁ p₂ hp h1 h2 hsx

/-- The two-sided splits of the three-character pattern. -/
theorem sc_splits {p₁ p₂ : List Char} (h : "<sc".data = p₁ ++ p₂)
    (h1 : p₁ ≠ []) (h2 : p₂ ≠ []) : p₁ = "<".data ∨ p₁ = "<s".data := by
  rcases p₁ with _ | ⟨a, _ | ⟨b, _ | ⟨c, rest⟩⟩⟩
  · exact absurd rfl h1
  · have h' : '<' :: 's' :: 'c' :: [] = a :: p₂ := h
    injection h' with ha _
    subst ha
    left; rfl
  · have h' : '<' :: 's' :: 'c' :: [] = a :: b :: p₂ := h
    injection h' with ha h'
    injection h' with hb _
    subst ha; subst hb
    right; rfl
  · exfalso
    have h' : '<' :: 's' :: 'c' :: [] = a :: b :: c :: (rest ++ p₂) := by simpa using h
    injection h' with _ h'
    injection h' with _ h'
    injection h' with _ h'
    cases rest with
    | nil => exact h2 (by simpa using h'.symm)
    | cons r rs => simp at h'

/-- A list missing a character of the pattern cannot end with the pattern. -/
theorem not_mem_not_suffix {c : Char} {p x : List Char} (hc : c ∈ p) (hx : c ∉ x) :
    ¬ p <:+ x := fun h => hx (h.subset hc)

/-- A list missing a character of the pattern cannot contain the pattern. -/
theorem not_mem_not_contains {c : Char} {p x : List Char} (hc : c ∈ p) (hx : c ∉ x) :
    ¬ p <:+: x := fun h => hx (h.subset hc)

/-- Cross condition of not_infix_append_of for the three-character pattern,
discharged by the two decidable suffix checks on the left part. -/
theorem sc_cross_of_checks {x : List Char} (hx1 : ¬ "<".data <:+ x)
    (hx2 : ¬ "<s".data <:+ x) :
    ∀ p₁ p₂, "<sc".data = p₁ ++ p₂ → p₁ ≠ [] → p₂ ≠ [] → ¬ p₁ <:+ x := by
  intro p₁ p₂ hp h1 h2
  rcases sc_splits hp h1 h2 with rfl | rfl
  · exact hx1
  · exact hx2

/-- Cross condition of not_infix_append_of when the left part has no
angle-open character at all. -/
theorem sc_cross_of_noLt {x : List Char} (hx : '<' ∉ x) :
    ∀ p₁ p₂, "<sc".data = p₁ ++ p₂ → p₁ ≠ [] → p₂ ≠ [] → ¬ p₁ <:+ x := by
  intro p₁ p₂ hp h1 h2
  rcases sc_splits hp h1 h2 with rfl | rfl
  · exact not_mem_not_suffix (by decide) hx
  · exact not_mem_not_suffix (by decide) hx

/-- A part with no angle-open character does not contain the pattern. -/
theorem sc_not_infix_of_noLt {x : List Char} (hx : '<' ∉ x) :
    ¬ "<sc".data <:+: x := not_mem_not_contains (by decide) hx

end ListLemmas


section MainHtmlLemmas

/-- Chain step: a concrete template chunk checked by three decidable facts. -/
theorem sc_chain_chunk {x y : List Char} (hx : ¬ "<sc".data <:+: x)
    (hx1 : ¬ "<".data <:+ x) (hx2 : ¬ "<s".data <:+ x)
    (hy : ¬ "<sc".data <:+: y) : ¬ "<sc".data <:+: x ++ y :=
  not_infix_append_of hx hy (sc_cross_of_checks hx1 hx2)

/-- Chain step: a chunk with no angle-open character. -/
theorem sc_chain_noLt {x y : List Char} (hx : '<' ∉ x)
    (hy : ¬ "<sc".data <:+: y) : ¬ "<sc".data <:+: x ++ y :=
  not_infix_append_of (sc_not_infix_of_noLt hx) hy (sc_cross_of_noLt hx)

/-- The footer date value has no angle-open character under the side
condition on the meetingInfo fields. -/
theorem footer_date_noLt (mi : Option MainServer.MeetingInfo)
    (h : MainServer.meetingInfoNoLt mi) : '<' ∉ MainServer.footer_date mi := by
  cases mi with
  | none => decide
  | some m => exact h.1

/-- The meta-info block of main.py never contains the pattern when the
embedded fields have no angle-open character. -/
theorem meta_block_no_sc (mi : Option MainServer.MeetingInfo)
    (h : MainServer.meetingInfoNoLt mi) :
    ¬ "<sc".data <:+: MainServer.meta_block mi := by
  cases mi with
  | none => decide
  | some m =>
    obtain ⟨h1, h2, h3⟩ := h
    have hre : MainServer.meta_block (some m) =
        MainServer.metaPre ++ (m.date ++ (MainServer.metaMid1 ++ (m.startTime ++
          (MainServer.metaMid2 ++ (m.duration ++ MainServer.metaPost))))) := by
      simp [MainServer.meta_block, List.append_assoc]
    rw [hre]
    exact sc_chain_chunk (by decide) (by decide) (by decide)
      (sc_chain_noLt h1
        (sc_chain_chunk (by decide) (by decide) (by decide)
          (sc_chain_noLt h2
            (sc_chain_chunk (by decide) (by decide) (by decide)
              (sc_chain_noLt h3 (by decide))))))

/-- No short pattern that is not a suffix of metaPost ends the meta block. -/
theorem meta_block_no_suffix (mi : Option MainServer.MeetingInfo) (p : List Char)
    (hne : p ≠ []) (hl : p.length ≤ MainServer.metaPost.length)
    (hs : ¬ p <:+ MainServer.metaPost) : ¬ p <:+ MainServer.meta_block mi := by
  cases mi with
  | none =>
    intro h
    exact hne (List.suffix_nil.mp h)
  | some m =>
    have hre : MainServer.meta_block (some m) =
        (MainServer.metaPre ++ m.date ++ MainServer.metaMid1 ++ m.startTime ++
          MainServer.metaMid2 ++ m.duration) ++ MainServer.metaPost := by
      simp [MainServer.meta_block, List.append_assoc]
    rw [hre]
    intro h
    exact hs (suffix_drop_left hl h)

/-- Chain step over the whole meta block. -/
theorem sc_chain_meta {y : List Char} (mi : Option MainServer.MeetingInfo)
    (h : MainServer.meetingInfoNoLt mi) (hy : ¬ "<sc".data <:+: y) :
    ¬ "<sc".data <:+: MainServer.meta_block mi ++ y :=
  not_infix_append_of (meta_block_no_sc mi h) hy
    (sc_cross_of_checks
      (meta_block_no_suffix mi _ (by decide) (by decide) (by decide))
      (meta_block_no_suffix mi _ (by decide) (by decide) (by decide)))

/-- The main.py html body fully right-associated into its chunks. -/
theorem main_html_content_assoc (summary : List Char)
    (mi : Option MainServer.MeetingInfo) :
    MainServer.html_content summary mi =
      MainServer.htmlHeadA ++ (MainServer.htmlHeadB ++ (MainServer.htmlHeadC ++
        (MainServer.meta_block mi ++ (MainServer.htmlMid ++ (escapeAngle summary ++
        (MainServer.htmlTail1 ++ (MainServer.footer_date mi ++
          MainServer.htmlTail2))))))) := by
  simp [MainServer.html_content, MainServer.htmlHead, List.append_assoc]

/-- The full main.py html body never contains the three-character pattern
that every script tag must start with. -/
theorem main_html_no_sc (summary : List Char) (mi : Option MainServer.MeetingInfo)
    (h : MainServer.meetingInfoNoLt mi) :
    ¬ "<sc".data <:+: MainServer.html_content summary mi := by
  rw [main_html_content_assoc]
  exact sc_chain_chunk (by decide) (by decide) (by decide)
    (sc_chain_chunk (by decide) (by decide) (by decide)
      (sc_chain_chunk (by decide) (by decide) (by decide)
        (sc_chain_meta mi h
          (sc_chain_chunk (by decide) (by decide) (by decide)
            (sc_chain_noLt (lt_not_mem_escapeAngle summary)
              (sc_chain_chunk (by decide) (by decide) (by decide)
                (sc_chain_noLt (footer_date_noLt mi h) (by decide))))))))

/-- The escaped summary is an infix of the main.py html body. -/
theorem escaped_summary_infix_main_html (summary : List Char)
    (mi : Option MainServer.MeetingInfo) :
    escapeAngle summary <:+: MainServer.html_content summary mi := by
  rw [main_html_content_assoc]
  apply infix_of_infix_right
  apply infix_of_infix_right
  apply infix_of_infix_right
  apply infix_of_infix_right
  apply infix_of_infix_right
  exact List.IsPrefix.isInfix (List.prefix_append _ _)

/-- A summary containing a script tag yields the escaped tag in the body. -/
theorem escaped_script_infix_main_html (summary : List Char)
    (mi : Option MainServer.MeetingInfo) (hs : "<script>".data <:+: summary) :
    "&lt;script&gt;".data <:+: MainServer.html_content summary mi := by
  have h1 : escapeAngle "<script>".data <:+: escapeAngle summary := escapeAngle_mono hs
  have h2 : escapeAngle "<script>".data = "&lt;script&gt;".data := by decide
  rw [h2] at h1
  exact h1.trans (escaped_summary_infix_main_html summary mi)

/-- The main.py html body never contains a raw script tag. -/
theorem main_html_no_script (summary : List Char) (mi : Option MainServer.MeetingInfo)
    (h : MainServer.meetingInfoNoLt mi) :
    ¬ "<script>".data <:+: MainServer.html_content summary mi := by
  intro hcon
  exact main_html_no_sc summary mi h
    ((List.IsPrefix.isInfix (by decide : "<sc".data <+: "<script>".data)).trans hcon)

end MainHtmlLemmas

section PipelineLemmas

/-- An infix of the left part of a concatenation is an infix of the whole. -/
theorem infix_of_infix_left {p x : List Char} (y : List Char) (h : p <:+: x) :
    p <:+: x ++ y := by
  obtain ⟨u, v, rfl⟩ := h
  exact ⟨u, v ++ y, by simp⟩

/-- A list is an infix of anything that appends to both of its sides. -/
theorem infix_self_append (x p : List Char) : p <:+: x ++ p :=
  ⟨x, [], by simp⟩

/-- working_server send_email returns False whenever the SMTP transaction
fails, whatever the credentials and composition do. -/
theorem working_send_email_error_false (env : Env) (m e s : List Char)
    (mi : MeetingInfoDict) :
    (WorkingServer.send_email env (.error m) e s mi).1 = false := by
  unfold WorkingServer.send_email
  split
  · rfl
  · split
    · rfl
    · rfl

/-- working_server send_email returns True only with configured credentials
and a successful SMTP transaction. -/
theorem working_send_email_true {env : Env} {smtp : SmtpOutcome} {e s : List Char}
    {mi : MeetingInfoDict} (h : (WorkingServer.send_email env smtp e s mi).1 = true) :
    pyTruthy env.GMAIL_USER = true ∧ pyTruthy env.GMAIL_APP_PASSWORD = true ∧
      smtp = SmtpOutcome.ok := by
  unfold WorkingServer.send_email at h
  split at h
  · simp at h
  · next hcond =>
    rw [Bool.or_eq_true, not_or] at hcond
    obtain ⟨hu, hp⟩ := hcond
    refine ⟨?_, ?_, ?_⟩
    · simpa using hu
    · simpa using hp
    · split at h
      · simp at h
      · cases smtp with
        | ok => rfl
        | error m => simp at h

end PipelineLemmas

/-- C1 counterexample: the transcript "hi        " (length 10, only 2
characters after trimming) is accepted by main.py, the provider HTTP call is
made and the request succeeds, although the claim demands a validation
failure without any outbound call for every transcript shorter than 10
characters after trimming. -/
theorem C1_trimmed_transcript_counterexample :
    (pyStrip "hi        ".data).length < 10 ∧
    MainServer.summarize_and_email
      ⟨some "sk-test-key".data, some "a@gmail.com".data, some "pw".data⟩
      (.respond 200 "raw".data (some "SUMMARY".data)) .ok
      ⟨"hi        ".data, "korean".data, "".data, none, none⟩ =
      (.ok ⟨true, "SUMMARY".data, true⟩, ⟨true, true⟩) := by
  constructor
  · decide
  · rfl

/-- C1 amended: a transcript whose untrimmed length is below 10 (both
servers), or which is blank after trimming (main.py), is rejected with a 400
validation error before the provider HTTP call or the SMTP transaction is
attempted. -/
theorem C1_short_transcript_validation :
    (∀ (env : Env) (provider : ProviderBehavior) (smtp : SmtpOutcome)
        (req : RequestDict),
      (req.transcript.getD []).length < 10 →
      WorkingServer.summarize_and_email env provider smtp req =
        (.error (.httpException 400 "텍스트가 너무 짧습니다".data), ⟨false, false⟩)) ∧
    (∀ (env : Env) (provider : ProviderBehavior) (smtp : SmtpOutcome)
        (req : MainServer.SummaryRequest),
      req.transcript.length < 10 ∨ (pyStrip req.transcript).isEmpty = true →
      ∃ d, MainServer.summarize_and_email env provider smtp req =
        (.error (.httpException 400 d), ⟨false, false⟩)) := by
  constructor
  · intro env provider smtp req h
    unfold WorkingServer.summarize_and_email
    have hc : ((req.transcript.getD []).isEmpty ||
        decide ((req.transcript.getD []).length < 10)) = true := by
      simp [h]
    simp only [hc, if_true]
  · intro env provider smtp req h
    unfold MainServer.summarize_and_email
    by_cases hb : (pyStrip req.transcript).isEmpty
    · refine ⟨"요약할 텍스트가 비어있습니다".data, ?_⟩
      simp [hb]
    · rcases h with h | h
      · refine ⟨"텍스트가 너무 짧습니다".data, ?_⟩
        simp [hb, h]
      · exact absurd h hb

/-- C1 witness: the theorem applied to an empty-dict request (working), a
nine-character request (main), and a ten-space transcript that is blank
after trimming (main). -/
theorem C1_short_transcript_validation_witness :
    WorkingServer.summarize_and_email ⟨none, none, none⟩
        (.respond 200 "raw".data (some "SUMMARY".data)) .ok ⟨none, none, none, none⟩ =
      (.error (.httpException 400 "텍스트가 너무 짧습니다".data), ⟨false, false⟩) ∧
    (∃ d, MainServer.summarize_and_email ⟨none, none, none⟩
        (.respond 200 "raw".data (some "SUMMARY".data)) .ok
        ⟨"121212121".data, "korean".data, "".data, none, none⟩ =
      (.error (.httpException 400 d), ⟨false, false⟩)) ∧
    (∃ d, MainServer.summarize_and_email
        ⟨some "sk-test-key".data, some "a@gmail.com".data, some "pw".data⟩
        (.respond 200 "raw".data (some "SUMMARY".data)) .ok
        ⟨"          ".data, "korean".data, "".data, none, none⟩ =
      (.error (.httpException 400 d), ⟨false, false⟩)) :=
  ⟨C1_short_transcript_validation.1 _ _ _ _ (by decide),
   C1_short_transcript_validation.2 _ _ _ _ (Or.inl (by decide)),
   C1_short_transcript_validation.2 _ _ _ _ (Or.inr (by decide))⟩

/-- C2 counterexample: with language "french" the user content of the
provider request starts with the English template and not with the Korean
template, while the claim requires the Korean template for every language
value other than "english". -/
theorem C2_language_fallback_counterexample :
    WorkingServer.get_english_prompt <+:
      WorkingServer.user_content "이것은 충분히 긴 회의 내용입니다".data "french".data ∧
    ¬ (WorkingServer.get_korean_prompt <+:
      WorkingServer.user_content "이것은 충분히 긴 회의 내용입니다".data "french".data) := by
  constructor
  · show WorkingServer.get_english_prompt <+:
      WorkingServer.prompt_for "french".data ++ "\n\n".data ++
        "이것은 충분히 긴 회의 내용입니다".data
    have hp : WorkingServer.prompt_for "french".data = WorkingServer.get_english_prompt := by
      unfold WorkingServer.prompt_for
      rw [if_neg (by decide)]
    rw [hp]
    exact (List.prefix_append _ _).trans (List.prefix_append _ _)
  · decide

/-- C2 amended: the user content of the provider request starts with the
Korean template exactly when the (defaulted) language value is "korean", and
with the English template for every other value, including absent ones that
default to "korean". -/
theorem C2_language_template_selection :
    ∀ (req : RequestDict), 10 ≤ (req.transcript.getD []).length →
    ((req.language.getD "korean".data) = "korean".data →
      WorkingServer.get_korean_prompt <+:
        WorkingServer.user_content (req.transcript.getD []) (req.language.getD "korean".data)) ∧
    ((req.language.getD "korean".data) ≠ "korean".data →
      WorkingServer.get_english_prompt <+:
        WorkingServer.user_content (req.transcript.getD []) (req.language.getD "korean".data)) := by
  intro req _
  constructor
  · intro hl
    show WorkingServer.get_korean_prompt <+:
      WorkingServer.prompt_for _ ++ "\n\n".data ++ _
    rw [WorkingServer.prompt_for, if_pos hl]
    exact (List.prefix_append _ _).trans (List.prefix_append _ _)
  · intro hl
    show WorkingServer.get_english_prompt <+:
      WorkingServer.prompt_for _ ++ "\n\n".data ++ _
    rw [WorkingServer.prompt_for, if_neg hl]
    exact (List.prefix_append _ _).trans (List.prefix_append _ _)

/-- C2 witness: a request with no language field defaults to korean and gets
the Korean template. -/
theorem C2_language_template_selection_witness :
    WorkingServer.get_korean_prompt <+:
      WorkingServer.user_content
        ((RequestDict.mk (some "가나다라마바사아자차".data) none none none).transcript.getD [])
        ((RequestDict.mk (some "가나다라마바사아자차".data) none none none).language.getD "korean".data) :=
  (C2_language_template_selection ⟨some "가나다라마바사아자차".data, none, none, none⟩
    (by decide)).1 (by decide)

/-- C10: the prompt field of the typed request schema is accepted but never
read; two requests differing only in prompt produce the same result, the
same outbound trace, and (since the messages are built from transcript and
language alone) the same provider request. -/
theorem C10_prompt_field_unused :
    ∀ (env : Env) (provider : ProviderBehavior) (smtp : SmtpOutcome)
      (t l e : List Char) (mi : Option MainServer.MeetingInfo)
      (p₁ p₂ : Option (List Char)),
    MainServer.summarize_and_email env provider smtp ⟨t, l, e, mi, p₁⟩ =
      MainServer.summarize_and_email env provider smtp ⟨t, l, e, mi, p₂⟩ ∧
    MainServer.render (MainServer.summarize_and_email env provider smtp ⟨t, l, e, mi, p₁⟩) =
      MainServer.render (MainServer.summarize_and_email env provider smtp ⟨t, l, e, mi, p₂⟩) := by
  intro env provider smtp t l e mi p₁ p₂
  exact ⟨rfl, rfl⟩

/-- C3 counterexample: in main.py an empty recipient email does not skip the
mail dispatch; with credentials configured the SMTP transaction is attempted
and emailSent comes back true, although the claim demands emailSent = false
and no SMTP call for every blank recipient. -/
theorem C3_empty_email_counterexample :
    MainServer.summarize_and_email
      ⟨some "sk-test-key".data, some "a@gmail.com".data, some "pw".data⟩
      (.respond 200 "raw".data (some "SUMMARY".data)) .ok
      ⟨"이것은 충분히 긴 회의 내용입니다".data, "korean".data, "".data, none, none⟩ =
      (.ok ⟨true, "SUMMARY".data, true⟩, ⟨true, true⟩) := by
  rfl

/-- Characterization used for C3: with a blank email the working_server
pipeline never attempts SMTP and a successful result has emailSent false. -/
theorem working_summarize_blank_email {env : Env} {provider : ProviderBehavior}
    {smtp : SmtpOutcome} {req : RequestDict} {res : Except PyError SummarizeResult}
    {tr : CallTrace}
    (hE : WorkingServer.summarize_and_email env provider smtp req = (res, tr))
    (h : (!(req.email.getD []).isEmpty && !(pyStrip (req.email.getD [])).isEmpty) = false) :
    tr.smtpAttempted = false ∧ ∀ r, res = .ok r → r.emailSent = false := by
  unfold WorkingServer.summarize_and_email at hE
  dsimp only at hE
  split at hE
  · cases hE
    exact ⟨rfl, fun r hr => by cases hr⟩
  · split at hE
    · cases hE
      exact ⟨rfl, fun r hr => by cases hr⟩
    · cases hE
      exact ⟨rfl, fun r hr => by cases hr⟩
    · simp only [h, Bool.false_eq_true, if_false] at hE
      cases hE
      exact ⟨rfl, fun r hr => by cases hr; rfl⟩

/-- C3 amended (working_server): when the email field is absent, empty or
blank after trimming, the SMTP transaction is never attempted, and a
successful result carries emailSent = false. -/
theorem C3_blank_email_skips_mail :
    ∀ (env : Env) (provider : ProviderBehavior) (smtp : SmtpOutcome)
      (req : RequestDict),
    (!(req.email.getD []).isEmpty && !(pyStrip (req.email.getD [])).isEmpty) = false →
    (WorkingServer.summarize_and_email env provider smtp req).2.smtpAttempted = false ∧
    ∀ r, (WorkingServer.summarize_and_email env provider smtp req).1 = .ok r →
      r.emailSent = false :=
  fun env provider smtp req h =>
    working_summarize_blank_email Prod.mk.eta.symm h

/-- C3 witness: a request with a whitespace-only email field. -/
theorem C3_blank_email_skips_mail_witness :
    (WorkingServer.summarize_and_email
      ⟨some "sk-test-key".data, some "a@gmail.com".data, some "pw".data⟩
      (.respond 200 "raw".data (some "SUMMARY".data)) .ok
      ⟨some "이것은 충분히 긴 회의 내용입니다".data, none, some "   ".data, none⟩).2.smtpAttempted
      = false :=
  (C3_blank_email_skips_mail _ _ _ _ (by decide)).1

/-- C4 counterexample: in main.py a failing SMTP transaction raises
HTTPException(500) out of send_email, so the whole request fails with a 500
error and the computed summary is lost, although the claim demands
success = true with the summary and emailSent = false. -/
theorem C4_mail_failure_counterexample :
    MainServer.summarize_and_email
      ⟨some "sk-test-key".data, some "a@gmail.com".data, some "pw".data⟩
      (.respond 200 "raw".data (some "SUMMARY".data)) (.error "boom".data)
      ⟨"이것은 충분히 긴 회의 내용입니다".data, "korean".data, "pm@example.com".data,
        none, none⟩ =
      (.error (.httpException 500 "이메일 발송 실패: boom".data), ⟨true, true⟩) := by
  rfl

/-- Characterization used for C4: in working_server a failing SMTP
transaction leaves the request successful with the provider summary
unchanged and emailSent false. -/
theorem working_summarize_mail_failure {env : Env} {text c m : List Char}
    {req : RequestDict} {res : Except PyError SummarizeResult} {tr : CallTrace}
    (hE : WorkingServer.summarize_and_email env (.respond 200 text (some c))
      (.error m) req = (res, tr))
    (hk : pyTruthy env.OPENAI_API_KEY = true)
    (hv : 10 ≤ (req.transcript.getD []).length) :
    res = .ok ⟨true, c, false⟩ := by
  unfold WorkingServer.summarize_and_email at hE
  dsimp only at hE
  have h1 : (req.transcript.getD []).isEmpty = false := by
    rcases hx : req.transcript.getD [] with _ | ⟨a, rest⟩
    · rw [hx] at hv; simp at hv
    · rfl
  have hc : ((req.transcript.getD []).isEmpty ||
      decide ((req.transcript.getD []).length < 10)) = false := by
    simp [h1]
    omega
  simp only [hc, Bool.false_eq_true, if_false] at hE
  have hcall : WorkingServer.call_openai_api env (.respond 200 text (some c))
      (req.transcript.getD []) (req.language.getD "korean".data) = (.ok c, true) := by
    unfold WorkingServer.call_openai_api
    simp [hk]
  rw [hcall] at hE
  dsimp only at hE
  split at hE
  · cases hE
    simp [working_send_email_error_false]
  · cases hE
    rfl

/-- C4 amended (working_server): if the provider call succeeds and the SMTP
transaction fails, the request still succeeds, the summary equals the
provider completion unchanged, and emailSent is false; the mail error is
absorbed inside send_email. -/
theorem C4_mail_failure_degrades :
    ∀ (env : Env) (text c m : List Char) (req : RequestDict),
    pyTruthy env.OPENAI_API_KEY = true →
    10 ≤ (req.transcript.getD []).length →
    (WorkingServer.summarize_and_email env (.respond 200 text (some c))
      (.error m) req).1 = .ok ⟨true, c, false⟩ :=
  fun _ _ _ _ _ hk hv => working_summarize_mail_failure Prod.mk.eta.symm hk hv

/-- C4 witness: concrete failing mail transaction on working_server. -/
theorem C4_mail_failure_degrades_witness :
    (WorkingServer.summarize_and_email
      ⟨some "sk-test-key".data, some "a@gmail.com".data, some "pw".data⟩
      (.respond 200 "raw".data (some "SUMMARY".data)) (.error "boom".data)
      ⟨some "이것은 충분히 긴 회의 내용입니다".data, none,
        some "pm@example.com".data, none⟩).1 = .ok ⟨true, "SUMMARY".data, false⟩ :=
  C4_mail_failure_degrades _ "raw".data "SUMMARY".data "boom".data _
    (by decide) (by decide)

/-- Characterization used for C5 (working_server endpoint): with the
provider key absent, no provider HTTP request is attempted and the request
never succeeds. -/
theorem working_summarize_no_key {env : Env} {provider : ProviderBehavior}
    {smtp : SmtpOutcome} {req : RequestDict} {res : Except PyError SummarizeResult}
    {tr : CallTrace}
    (hE : WorkingServer.summarize_and_email env provider smtp req = (res, tr))
    (hk : pyTruthy env.OPENAI_API_KEY = false) :
    tr.providerHttpAttempted = false ∧ ∀ r, res ≠ .ok r := by
  unfold WorkingServer.summarize_and_email at hE
  dsimp only at hE
  split at hE
  · cases hE
    exact ⟨rfl, fun r hr => by cases hr⟩
  · have hcall : WorkingServer.call_openai_api env provider (req.transcript.getD [])
        (req.language.getD "korean".data) =
        (.error (.httpException 500 "OPENAI_API_KEY가 설정되지 않았습니다".data), false) := by
      unfold WorkingServer.call_openai_api
      simp [hk]
    rw [hcall] at hE
    dsimp only at hE
    cases hE
    exact ⟨rfl, fun r hr => by cases hr⟩

/-- Characterization used for C5 (main.py endpoint): with the provider key
absent, no provider HTTP request is attempted and the request never
succeeds. -/
theorem main_summarize_no_key {env : Env} {provider : ProviderBehavior}
    {smtp : SmtpOutcome} {req : MainServer.SummaryRequest}
    {res : Except PyError SummarizeResult} {tr : CallTrace}
    (hE : MainServer.summarize_and_email env provider smtp req = (res, tr))
    (hk : pyTruthy env.OPENAI_API_KEY = false) :
    tr.providerHttpAttempted = false ∧ ∀ r, res ≠ .ok r := by
  unfold MainServer.summarize_and_email at hE
  split at hE
  · cases hE
    exact ⟨rfl, fun r hr => by cases hr⟩
  · split at hE
    · cases hE
      exact ⟨rfl, fun r hr => by cases hr⟩
    · have hg : MainServer.generate_summary env provider req.transcript req.language =
          (.error (.httpException 500 ("요약 생성 실패: ".data ++
            "OPENAI_API_KEY 환경변수가 설정되지 않았습니다".data)), false) := by
        unfold MainServer.generate_summary MainServer.call_openai_api
        simp [hk, strOfPyError]
      rw [hg] at hE
      dsimp only at hE
      cases hE
      exact ⟨rfl, fun r hr => by cases hr⟩

/-- C5: a missing provider key makes call_openai_api raise its configuration
error before requests.post is reached (HTTPException 500 in working_server,
ValueError in main.py, later wrapped into a 500), and at the endpoint level
no provider HTTP request is ever attempted and the request never succeeds. -/
theorem C5_missing_key_fails_before_http :
    (∀ (env : Env) (provider : ProviderBehavior) (t l : List Char),
      pyTruthy env.OPENAI_API_KEY = false →
      WorkingServer.call_openai_api env provider t l =
        (.error (.httpException 500 "OPENAI_API_KEY가 설정되지 않았습니다".data), false)) ∧
    (∀ (env : Env) (provider : ProviderBehavior)
        (msgs : List (List Char × List Char)),
      pyTruthy env.OPENAI_API_KEY = false →
      MainServer.call_openai_api env provider msgs =
        (.error (.valueError "OPENAI_API_KEY 환경변수가 설정되지 않았습니다".data), false)) ∧
    (∀ (env : Env) (provider : ProviderBehavior) (smtp : SmtpOutcome)
        (req : RequestDict),
      pyTruthy env.OPENAI_API_KEY = false →
      (WorkingServer.summarize_and_email env provider smtp req).2.providerHttpAttempted
        = false ∧
      ∀ r, (WorkingServer.summarize_and_email env provider smtp req).1 ≠ .ok r) ∧
    (∀ (env : Env) (provider : ProviderBehavior) (smtp : SmtpOutcome)
        (req : MainServer.SummaryRequest),
      pyTruthy env.OPENAI_API_KEY = false →
      (MainServer.summarize_and_email env provider smtp req).2.providerHttpAttempted
        = false ∧
      ∀ r, (MainServer.summarize_and_email env provider smtp req).1 ≠ .ok r) := by
  refine ⟨?_, ?_, ?_, ?_⟩
  · intro env provider t l hk
    unfold WorkingServer.call_openai_api
    simp [hk]
  · intro env provider msgs hk
    unfold MainServer.call_openai_api
    simp [hk]
  · intro env provider smtp req hk
    exact working_summarize_no_key Prod.mk.eta.symm hk
  · intro env provider smtp req hk
    exact main_summarize_no_key Prod.mk.eta.symm hk

/-- C5 witness: the four conjuncts applied to an environment with no key. -/
theorem C5_missing_key_fails_before_http_witness :
    WorkingServer.call_openai_api ⟨none, some "a@gmail.com".data, some "pw".data⟩
        (.respond 200 "raw".data (some "SUMMARY".data)) "T".data "korean".data =
      (.error (.httpException 500 "OPENAI_API_KEY가 설정되지 않았습니다".data), false) ∧
    MainServer.call_openai_api ⟨some "".data, none, none⟩
        (.respond 200 "raw".data (some "SUMMARY".data)) [] =
      (.error (.valueError "OPENAI_API_KEY 환경변수가 설정되지 않았습니다".data), false) ∧
    (WorkingServer.summarize_and_email ⟨none, none, none⟩
        (.respond 200 "raw".data (some "SUMMARY".data)) .ok
        ⟨some "이것은 충분히 긴 회의 내용입니다".data, none, none, none⟩).2.providerHttpAttempted
      = false ∧
    (MainServer.summarize_and_email ⟨none, none, none⟩
        (.respond 200 "raw".data (some "SUMMARY".data)) .ok
        ⟨"이것은 충분히 긴 회의 내용입니다".data, "korean".data, "".data, none,
          none⟩).2.providerHttpAttempted = false :=
  ⟨C5_missing_key_fails_before_http.1 _ _ _ _ (by decide),
   C5_missing_key_fails_before_http.2.1 _ _ _ (by decide),
   (C5_missing_key_fails_before_http.2.2.1 _ _ _ _ (by decide)).1,
   (C5_missing_key_fails_before_http.2.2.2 _ _ _ _ (by decide)).1⟩

/-- C6 counterexample: simple_http_server embeds the summary into the email
body with no escaping, so a summary holding a script tag puts the raw tag
into the body and the escaped form appears nowhere. -/
theorem C6_unescaped_body_counterexample :
    "<script>".data <:+:
      SimpleHttpServer.html_content "<script>alert(1)</script>".data ∧
    ¬ ("&lt;script&gt;".data <:+:
      SimpleHttpServer.html_content "<script>alert(1)</script>".data) := by
  constructor
  · show "<script>".data <:+:
      SimpleHttpServer.htmlHead ++ "<script>alert(1)</script>".data ++
        SimpleHttpServer.htmlTail
    exact infix_of_infix_left _ (infix_of_infix_right _
      (List.IsPrefix.isInfix (List.prefix_append _ _)))
  · exact @not_mem_not_contains '&' "&lt;script&gt;".data
      (SimpleHttpServer.html_content "<script>alert(1)</script>".data)
      (by decide) (by decide)

/-- C6 amended (main.py, also the behaviour of working_server and
clean_server): the summary is embedded with every angle bracket escaped, so
a summary containing a script tag yields the escaped entity sequence in the
body and never a raw script tag, provided the meetingInfo fields, which are
embedded verbatim, contain no angle-open character.  simple_http_server and
simple_server embed the summary unescaped. -/
theorem C6_summary_escaped_in_body :
    ∀ (summary : List Char) (mi : Option MainServer.MeetingInfo),
    "<script>".data <:+: summary →
    MainServer.meetingInfoNoLt mi →
    "&lt;script&gt;".data <:+: MainServer.html_content summary mi ∧
    ¬ ("<script>".data <:+: MainServer.html_content summary mi) ∧
    '<' ∉ escapeAngle summary ∧ '>' ∉ escapeAngle summary := by
  intro summary mi hs hmi
  exact ⟨escaped_script_infix_main_html summary mi hs,
    main_html_no_script summary mi hmi,
    lt_not_mem_escapeAngle summary, gt_not_mem_escapeAngle summary⟩

/-- C6 witness: a concrete summary containing a script tag, no meetingInfo. -/
theorem C6_summary_escaped_in_body_witness :
    "&lt;script&gt;".data <:+:
      MainServer.html_content "결과 <script>alert(1)</script> 끝".data none ∧
    ¬ ("<script>".data <:+:
      MainServer.html_content "결과 <script>alert(1)</script> 끝".data none) ∧
    '<' ∉ escapeAngle "결과 <script>alert(1)</script> 끝".data ∧
    '>' ∉ escapeAngle "결과 <script>alert(1)</script> 끝".data :=
  C6_summary_escaped_in_body "결과 <script>alert(1)</script> 끝".data none
    (by decide) trivial

/-- C7 counterexample: in main.py missing mail credentials do not silently
disable dispatch; send_email raises and the whole request fails with a 500
error. -/
theorem C7_missing_credentials_counterexample :
    MainServer.summarize_and_email ⟨some "sk-test-key".data, none, none⟩
      (.respond 200 "raw".data (some "SUMMARY".data)) .ok
      ⟨"이것은 충분히 긴 회의 내용입니다".data, "korean".data, "pm@example.com".data,
        none, none⟩ =
      (.error (.httpException 500
        "이메일 발송 실패: Gmail 인증 정보가 설정되지 않았습니다".data), ⟨true, false⟩) := by
  rfl

/-- Characterization used for C7: in working_server, a successful result
with emailSent true forces a supplied non-blank email, configured mail
credentials and a successful SMTP transaction. -/
theorem working_summarize_email_sent {env : Env} {provider : ProviderBehavior}
    {smtp : SmtpOutcome} {req : RequestDict} {res : Except PyError SummarizeResult}
    {tr : CallTrace}
    (hE : WorkingServer.summarize_and_email env provider smtp req = (res, tr))
    {r : SummarizeResult} (hr : res = .ok r) (hsent : r.emailSent = true) :
    (!(req.email.getD []).isEmpty && !(pyStrip (req.email.getD [])).isEmpty) = true ∧
    pyTruthy env.GMAIL_USER = true ∧ pyTruthy env.GMAIL_APP_PASSWORD = true ∧
    smtp = SmtpOutcome.ok := by
  unfold WorkingServer.summarize_and_email at hE
  dsimp only at hE
  split at hE
  · cases hE; cases hr
  · split at hE
    · cases hE; cases hr
    · cases hE; cases hr
    · split at hE
      · next hcond =>
        cases hE
        cases hr
        obtain ⟨hu, hp, hok⟩ := working_send_email_true hsent
        exact ⟨hcond, hu, hp, hok⟩
      · cases hE
        cases hr
        simp at hsent

/-- Characterization used for C7: in working_server, with missing mail
credentials the request still succeeds (given a successful provider call),
with emailSent false and no SMTP attempt. -/
theorem working_summarize_creds_missing {env : Env} {text c : List Char}
    {smtp : SmtpOutcome} {req : RequestDict} {res : Except PyError SummarizeResult}
    {tr : CallTrace}
    (hE : WorkingServer.summarize_and_email env (.respond 200 text (some c)) smtp req
      = (res, tr))
    (hk : pyTruthy env.OPENAI_API_KEY = true)
    (hv : 10 ≤ (req.transcript.getD []).length)
    (hcred : pyTruthy env.GMAIL_USER = false ∨ pyTruthy env.GMAIL_APP_PASSWORD = false) :
    res = .ok ⟨true, c, false⟩ ∧ tr.smtpAttempted = false := by
  unfold WorkingServer.summarize_and_email at hE
  dsimp only at hE
  have h1 : (req.transcript.getD []).isEmpty = false := by
    rcases hx : req.transcript.getD [] with _ | ⟨a, rest⟩
    · rw [hx] at hv; simp at hv
    · rfl
  have hc : ((req.transcript.getD []).isEmpty ||
      decide ((req.transcript.getD []).length < 10)) = false := by
    simp [h1]
    omega
  simp only [hc, Bool.false_eq_true, if_false] at hE
  have hcall : WorkingServer.call_openai_api env (.respond 200 text (some c))
      (req.transcript.getD []) (req.language.getD "korean".data) = (.ok c, true) := by
    unfold WorkingServer.call_openai_api
    simp [hk]
  rw [hcall] at hE
  dsimp only at hE
  have hsend : WorkingServer.send_email env smtp (pyStrip (req.email.getD []))
      c (req.meetingInfo.getD MeetingInfoDict.empty) = (false, false) := by
    unfold WorkingServer.send_email
    have : (!(pyTruthy env.GMAIL_USER) || !(pyTruthy env.GMAIL_APP_PASSWORD)) = true := by
      rcases hcred with h | h <;> simp [h]
    rw [if_pos this]
  split at hE
  · rw [hsend] at hE
    cases hE
    exact ⟨rfl, rfl⟩
  · cases hE
    exact ⟨rfl, rfl⟩

/-- C7 amended (working_server): emailSent is true only if a non-blank email
was supplied, both mail credentials are configured and the SMTP transaction
succeeded; and with missing credentials the request still succeeds with
emailSent = false and no SMTP attempt (silent skip), while in main.py
missing credentials fail the whole request with a 500 error. -/
theorem C7_email_sent_conditions :
    (∀ (env : Env) (provider : ProviderBehavior) (smtp : SmtpOutcome)
        (req : RequestDict) (r : SummarizeResult),
      (WorkingServer.summarize_and_email env provider smtp req).1 = .ok r →
      r.emailSent = true →
      (!(req.email.getD []).isEmpty && !(pyStrip (req.email.getD [])).isEmpty) = true ∧
      pyTruthy env.GMAIL_USER = true ∧ pyTruthy env.GMAIL_APP_PASSWORD = true ∧
      smtp = SmtpOutcome.ok) ∧
    (∀ (env : Env) (text c : List Char) (smtp : SmtpOutcome) (req : RequestDict),
      pyTruthy env.OPENAI_API_KEY = true →
      10 ≤ (req.transcript.getD []).length →
      (pyTruthy env.GMAIL_USER = false ∨ pyTruthy env.GMAIL_APP_PASSWORD = false) →
      (WorkingServer.summarize_and_email env (.respond 200 text (some c)) smtp req).1
        = .ok ⟨true, c, false⟩ ∧
      (WorkingServer.summarize_and_email env (.respond 200 text (some c)) smtp req).2.smtpAttempted
        = false) := by
  constructor
  · intro env provider smtp req r hr hsent
    exact working_summarize_email_sent Prod.mk.eta.symm hr hsent
  · intro env text c smtp req hk hv hcred
    exact working_summarize_creds_missing Prod.mk.eta.symm hk hv hcred

/-- C7 witness: missing mail credentials on working_server give a
successful result with emailSent false and no SMTP attempt. -/
theorem C7_email_sent_conditions_witness :
    (WorkingServer.summarize_and_email ⟨some "sk-test-key".data, none, none⟩
      (.respond 200 "raw".data (some "SUMMARY".data)) .ok
      ⟨some "이것은 충분히 긴 회의 내용입니다".data, none,
        some "pm@example.com".data, none⟩).1 = .ok ⟨true, "SUMMARY".data, false⟩ ∧
    (WorkingServer.summarize_and_email ⟨some "sk-test-key".data, none, none⟩
      (.respond 200 "raw".data (some "SUMMARY".data)) .ok
      ⟨some "이것은 충분히 긴 회의 내용입니다".data, none,
        some "pm@example.com".data, none⟩).2.smtpAttempted = false :=
  C7_email_sent_conditions.2 _ "raw".data "SUMMARY".data .ok _
    (by decide) (by decide) (Or.inl (by decide))

/-- Shape of main.py generate_summary results: success or an
HTTPException(500) (every exception inside it is wrapped into one). -/
theorem main_generate_shape (env : Env) (provider : ProviderBehavior)
    (t l : List Char) :
    (∃ c a, MainServer.generate_summary env provider t l = (.ok c, a)) ∨
    (∃ d a, MainServer.generate_summary env provider t l =
      (.error (.httpException 500 d), a)) := by
  unfold MainServer.generate_summary
  rcases hc : MainServer.call_openai_api env provider (MainServer.request_messages t l)
    with ⟨cres, a⟩
  cases cres with
  | ok c => exact Or.inl ⟨c, a, rfl⟩
  | error e => exact Or.inr ⟨_, a, rfl⟩

/-- Shape of main.py send_email results: success or an HTTPException(500). -/
theorem main_send_email_shape (env : Env) (smtp : SmtpOutcome) (e s : List Char)
    (mi : Option MainServer.MeetingInfo) :
    (∃ b a, MainServer.send_email env smtp e s mi = (.ok b, a)) ∨
    (∃ d a, MainServer.send_email env smtp e s mi =
      (.error (.httpException 500 d), a)) := by
  unfold MainServer.send_email
  split
  · exact Or.inr ⟨_, _, rfl⟩
  · cases smtp with
    | ok => exact Or.inl ⟨_, _, rfl⟩
    | error m => exact Or.inr ⟨_, _, rfl⟩

/-- Shape of main.py summarize results: a success body built with
success = true, or an HTTPException with status 400 or 500. -/
theorem main_summarize_shape (env : Env) (provider : ProviderBehavior)
    (smtp : SmtpOutcome) (req : MainServer.SummaryRequest) :
    (∃ s b tr, MainServer.summarize_and_email env provider smtp req =
      (.ok ⟨true, s, b⟩, tr)) ∨
    (∃ d tr, MainServer.summarize_and_email env provider smtp req =
      (.error (.httpException 400 d), tr)) ∨
    (∃ d tr, MainServer.summarize_and_email env provider smtp req =
      (.error (.httpException 500 d), tr)) := by
  rcases hE : MainServer.summarize_and_email env provider smtp req with ⟨res, tr⟩
  unfold MainServer.summarize_and_email at hE
  split at hE
  · cases hE
    exact Or.inr (Or.inl ⟨_, _, rfl⟩)
  · split at hE
    · cases hE
      exact Or.inr (Or.inl ⟨_, _, rfl⟩)
    · rcases main_generate_shape env provider req.transcript req.language
        with ⟨c, a, hg⟩ | ⟨d, a, hg⟩
      · rw [hg] at hE
        dsimp only at hE
        rcases main_send_email_shape env smtp req.email c req.meetingInfo
          with ⟨b, sa, hs⟩ | ⟨d, sa, hs⟩
        · rw [hs] at hE
          dsimp only at hE
          cases hE
          exact Or.inl ⟨c, b, _, rfl⟩
        · rw [hs] at hE
          dsimp only at hE
          cases hE
          exact Or.inr (Or.inr ⟨d, _, rfl⟩)
      · rw [hg] at hE
        dsimp only at hE
        cases hE
        exact Or.inr (Or.inr ⟨d, _, rfl⟩)

/-- Shape of simple_http_server responses: 200 success body, 400 error-only
body, or 500 body with success false and an error string. -/
theorem shttp_response_shape (env : Env) (provider : ProviderBehavior)
    (smtp : SmtpOutcome) (req : RequestDict) :
    (∃ s b tr, SimpleHttpServer.do_POST env provider smtp req =
      ((200, [("success".data, .jbool true), ("summary".data, .jstr s),
        ("emailSent".data, .jbool b)]), tr)) ∨
    (∃ tr, SimpleHttpServer.do_POST env provider smtp req =
      ((400, [("error".data, .jstr "텍스트가 너무 짧습니다".data)]), tr)) ∨
    (∃ d tr, SimpleHttpServer.do_POST env provider smtp req =
      ((500, [("success".data, .jbool false), ("error".data, .jstr d)]), tr)) := by
  rcases hE : SimpleHttpServer.do_POST env provider smtp req with ⟨resp, tr⟩
  unfold SimpleHttpServer.do_POST at hE
  dsimp only at hE
  split at hE
  · cases hE
    exact Or.inr (Or.inl ⟨_, rfl⟩)
  · rcases hc : SimpleHttpServer.call_openai_api env provider (req.transcript.getD [])
      (req.language.getD "korean".data) with ⟨cres, a⟩
    rw [hc] at hE
    cases cres with
    | error e =>
      dsimp only at hE
      cases hE
      exact Or.inr (Or.inr ⟨_, _, rfl⟩)
    | ok summary =>
      dsimp only at hE
      split at hE
      · cases hE
        exact Or.inl ⟨_, _, _, rfl⟩
      · cases hE
        exact Or.inl ⟨_, _, _, rfl⟩

/-- C8 counterexample: the 400 validation response of main.py has the body
consisting of the single field "detail"; it has no success field and no
error field, although the claim requires every 4xx/5xx body to carry
success = false and an error string. -/
theorem C8_error_body_counterexample :
    MainServer.render (MainServer.summarize_and_email
      ⟨some "sk-test-key".data, some "a@gmail.com".data, some "pw".data⟩
      (.respond 200 "raw".data (some "SUMMARY".data)) .ok
      ⟨"짧다".data, "korean".data, "".data, none, none⟩) =
      (400, [("detail".data, .jstr "텍스트가 너무 짧습니다".data)]) ∧
    (MainServer.render (MainServer.summarize_and_email
      ⟨some "sk-test-key".data, some "a@gmail.com".data, some "pw".data⟩
      (.respond 200 "raw".data (some "SUMMARY".data)) .ok
      ⟨"짧다".data, "korean".data, "".data, none, none⟩)).2.map Prod.fst =
      ["detail".data] := by
  exact ⟨rfl, rfl⟩

/-- C8 amended: every response is either 200 with a success = true body
carrying the summary and emailSent, or a 4xx/5xx error response; but the
error bodies are the single field detail in the FastAPI servers (no success
field) and the single field error for simple_http_server's 400 response,
while only simple_http_server's 500 body carries success = false together
with an error string. -/
theorem C8_response_dichotomy :
    (∀ (env : Env) (provider : ProviderBehavior) (smtp : SmtpOutcome)
        (req : MainServer.SummaryRequest),
      ((MainServer.render (MainServer.summarize_and_email env provider smtp req)).1
          = 200 ∧
        ∃ s b, (MainServer.render (MainServer.summarize_and_email env provider smtp req)).2
          = [("success".data, .jbool true), ("summary".data, .jstr s),
             ("correctedTranscript".data, .jnull), ("emailSent".data, .jbool b),
             ("error".data, .jnull)]) ∨
      (((MainServer.render (MainServer.summarize_and_email env provider smtp req)).1
          = 400 ∨
        (MainServer.render (MainServer.summarize_and_email env provider smtp req)).1
          = 500) ∧
        ∃ d, (MainServer.render (MainServer.summarize_and_email env provider smtp req)).2
          = [("detail".data, .jstr d)])) ∧
    (∀ (env : Env) (provider : ProviderBehavior) (smtp : SmtpOutcome)
        (req : RequestDict),
      ((SimpleHttpServer.do_POST env provider smtp req).1.1 = 200 ∧
        ∃ s b, (SimpleHttpServer.do_POST env provider smtp req).1.2 =
          [("success".data, .jbool true), ("summary".data, .jstr s),
           ("emailSent".data, .jbool b)]) ∨
      ((SimpleHttpServer.do_POST env provider smtp req).1.1 = 400 ∧
        (SimpleHttpServer.do_POST env provider smtp req).1.2 =
          [("error".data, .jstr "텍스트가 너무 짧습니다".data)]) ∨
      ((SimpleHttpServer.do_POST env provider smtp req).1.1 = 500 ∧
        ∃ d, (SimpleHttpServer.do_POST env provider smtp req).1.2 =
          [("success".data, .jbool false), ("error".data, .jstr d)])) := by
  constructor
  · intro env provider smtp req
    rcases main_summarize_shape env provider smtp req
      with ⟨s, b, tr, hr⟩ | ⟨d, tr, hr⟩ | ⟨d, tr, hr⟩
    · rw [hr]
      exact Or.inl ⟨rfl, s, b, rfl⟩
    · rw [hr]
      exact Or.inr ⟨Or.inl rfl, d, rfl⟩
    · rw [hr]
      exact Or.inr ⟨Or.inr rfl, d, rfl⟩
  · intro env provider smtp req
    rcases shttp_response_shape env provider smtp req
      with ⟨s, b, tr, hr⟩ | ⟨tr, hr⟩ | ⟨d, tr, hr⟩
    · rw [hr]
      exact Or.inl ⟨rfl, s, b, rfl⟩
    · rw [hr]
      exact Or.inr (Or.inl ⟨rfl, rfl⟩)
    · rw [hr]
      exact Or.inr (Or.inr ⟨rfl, d, rfl⟩)

/-- C9 counterexample: working_server indexes meeting_info["date"] directly,
so a non-empty meetingInfo without a date key makes the html composition
raise KeyError instead of rendering empty text; send_email absorbs it and
returns False without attempting SMTP. -/
theorem C9_missing_date_counterexample :
    WorkingServer.html_content "요약".data ⟨none, some "10:00".data, none, none⟩ =
      .error (.keyError "date".data) ∧
    WorkingServer.send_email
      ⟨some "sk-test-key".data, some "a@gmail.com".data, some "pw".data⟩ .ok
      "pm@example.com".data "요약".data ⟨none, some "10:00".data, none, none⟩ =
      (false, false) := by
  exact ⟨rfl, rfl⟩

/-- C9 amended: when the date key is present, working_server's email
composition succeeds and embeds every supplied meetingInfo field into the
body, with absent non-date fields rendered via .get defaults as empty text;
when the dict is non-empty but the date key is absent, composition raises
KeyError, which send_email absorbs into a False return (emailSent = false,
no SMTP attempt); clean_server guards the date key and renders the date line
as empty text instead. -/
theorem C9_meeting_info_rendering :
    (∀ (s : List Char) (mi : MeetingInfoDict) (d : List Char),
      mi.date = some d →
      ∃ b, WorkingServer.html_content s mi = .ok b ∧ d <:+: b ∧
        (∀ v, mi.startTime = some v → v <:+: b) ∧
        (∀ v, mi.duration = some v → v <:+: b) ∧
        (∀ v, mi.segmentCount = some v → v <:+: b)) ∧
    (∀ (s : List Char) (mi : MeetingInfoDict),
      mi.truthy = true → mi.date = none →
      WorkingServer.html_content s mi = .error (.keyError "date".data) ∧
      ∀ (env : Env) (smtp : SmtpOutcome) (e : List Char),
        WorkingServer.send_email env smtp e s mi = (false, false)) ∧
    (∀ (mi : MeetingInfoDict), mi.date = none → CleanServer.date_line mi = []) := by
  refine ⟨?_, ?_, ?_⟩
  · intro s mi d hd
    have htr : mi.truthy = true := by
      simp [MeetingInfoDict.truthy, hd]
    have hm : WorkingServer.html_meta_block mi = .ok
        (WorkingServer.metaPre ++ d ++ WorkingServer.metaMid1 ++
          mi.startTime.getD [] ++ WorkingServer.metaMid2 ++ mi.duration.getD [] ++
          WorkingServer.metaMid3 ++ mi.segmentCount.getD [] ++
          WorkingServer.metaPost) := by
      unfold WorkingServer.html_meta_block
      rw [hd, if_pos htr]
    refine ⟨WorkingServer.htmlHead ++
        (WorkingServer.metaPre ++ d ++ WorkingServer.metaMid1 ++
          mi.startTime.getD [] ++ WorkingServer.metaMid2 ++ mi.duration.getD [] ++
          WorkingServer.metaMid3 ++ mi.segmentCount.getD [] ++
          WorkingServer.metaPost) ++
        WorkingServer.htmlMid ++ escapeAngle s ++ WorkingServer.htmlTail,
      ?_, ?_, ?_, ?_, ?_⟩
    · unfold WorkingServer.html_content
      rw [hm]
    · exact (infix_of_infix_left _ (infix_of_infix_left _ (infix_of_infix_left _
        (infix_of_infix_left _ (infix_of_infix_left _ (infix_of_infix_left _
        (infix_of_infix_left _ (infix_self_append _ _)))))))).trans
        (infix_of_infix_left _ (infix_of_infix_left _ (infix_of_infix_left _
          (infix_self_append _ _))))
    · intro v hv
      rw [hv]
      exact (infix_of_infix_left _ (infix_of_infix_left _ (infix_of_infix_left _
        (infix_of_infix_left _ (infix_of_infix_left _
        (infix_self_append _ _)))))).trans
        (infix_of_infix_left _ (infix_of_infix_left _ (infix_of_infix_left _
          (infix_self_append _ _))))
    · intro v hv
      rw [hv]
      exact (infix_of_infix_left _ (infix_of_infix_left _ (infix_of_infix_left _
        (infix_self_append _ _)))).trans
        (infix_of_infix_left _ (infix_of_infix_left _ (infix_of_infix_left _
          (infix_self_append _ _))))
    · intro v hv
      rw [hv]
      exact (infix_of_infix_left _ (infix_self_append _ _)).trans
        (infix_of_infix_left _ (infix_of_infix_left _ (infix_of_infix_left _
          (infix_self_append _ _))))
  · intro s mi htr hd
    have hh : WorkingServer.html_content s mi = .error (.keyError "date".data) := by
      unfold WorkingServer.html_content WorkingServer.html_meta_block
      rw [hd, if_pos htr]
    refine ⟨hh, ?_⟩
    intro env smtp e
    unfold WorkingServer.send_email
    split
    · rfl
    · rw [hh]
  · intro mi hd
    unfold CleanServer.date_line
    split
    · rw [hd]
    · rfl

/-- C9 witness: a meetingInfo carrying only a date renders that date into
the body; the other fields default to empty text. -/
theorem C9_meeting_info_rendering_witness :
    ∃ b, WorkingServer.html_content "요약".data
        ⟨some "2024-01-01".data, none, none, none⟩ = .ok b ∧
      "2024-01-01".data <:+: b ∧
      (∀ v, (MeetingInfoDict.mk (some "2024-01-01".data) none none none).startTime
        = some v → v <:+: b) ∧
      (∀ v, (MeetingInfoDict.mk (some "2024-01-01".data) none none none).duration
        = some v → v <:+: b) ∧
      (∀ v, (MeetingInfoDict.mk (some "2024-01-01".data) none none none).segmentCount
        = some v → v <:+: b) :=
  C9_meeting_info_rendering.1 "요약".data
    ⟨some "2024-01-01".data, none, none, none⟩ "2024-01-01".data rfl
